import Mathlib

set_option maxRecDepth 100000

/-!
Verification of the Poligraph MCP tool layer (transparence-politique-mcp).

The repository translates an upstream political-data REST API into MCP tools:
each tool handler performs one HTTP GET via a small client adapter
(`fetchAPI` in `src/api.ts`), then deterministically renders the JSON
response into a markdown narrative (built as an array of lines joined with
a newline) plus a structured payload.

This development shallowly embeds the response-shaping layer:

* upstream JSON responses become Lean structures mirroring the TypeScript
  interfaces (JavaScript numbers become `Int`, or `ℚ` where the code
  divides; nullable fields become `Option`);
* each handler's narrative construction becomes a function from the decoded
  response to the list of pushed lines.  Where the source pushes an already
  joined multi-line block (`lines.push(formatAffairDetail(...))`) the
  embedding appends the block's lines instead; joining the flattened list
  with `"\n"` yields the same final text, so counting rendered lines is
  faithful;
* JavaScript platform primitives used by the code (string truthiness,
  `Date` parsing plus `toLocaleDateString("fr-FR", long)`, `Math.round`,
  the Fetch API's `ok` predicate, `Map` insertion-order tallying and the
  stable `Array.prototype.sort`) are modelled explicitly and marked as such.
-/

namespace Poligraph

/-- JavaScript truthiness of a `string | null | undefined` value:
`null`/`undefined` and the empty string are falsy. -/
def truthyOpt : Option String → Bool
  | none => false
  | some s => !(s == "")

/-- Models `Math.round`: rounds half-up (toward positive infinity). -/
def jsRound (q : ℚ) : Int := ⌊q + 1/2⌋

namespace Api

/-- Input to `formatDate` in the source: `string | null | undefined`. -/
inductive DateInput where
  | jsNull
  | jsUndefined
  | str (s : String)
deriving DecidableEq

/-- Splits a character list on a separator character (helper for the
modelled ISO date parser). -/
def splitOnChar (c : Char) : List Char → List (List Char)
  | [] => [[]]
  | x :: xs =>
    let r := splitOnChar c xs
    if x = c then [] :: r
    else
      match r with
      | [] => [[x]]
      | g :: gs => (x :: g) :: gs

/-- Numeric value of a decimal digit character, if it is one. -/
def digitVal? (c : Char) : Option Nat :=
  if c.isDigit then some (c.toNat - 48) else none

/-- Parses a nonempty all-digit character list as a natural number. -/
def digitsToNat? (cs : List Char) : Option Nat :=
  match cs with
  | [] => none
  | _ =>
    cs.foldl
      (fun acc c =>
        match acc, digitVal? c with
        | some n, some d => some (n * 10 + d)
        | _, _ => none)
      (some 0)

/-- Models the JavaScript `new Date(s)` parse of an ISO `YYYY-MM-DD` string:
returns year, month, day when the string is three dash-separated decimal
components with a valid month and day, otherwise the invalid date. -/
def parseISODate (s : String) : Option (Nat × Nat × Nat) :=
  match splitOnChar '-' s.data with
  | [y, m, d] =>
    match digitsToNat? y, digitsToNat? m, digitsToNat? d with
    | some yn, some mn, some dn =>
      if 1 ≤ mn && mn ≤ 12 && 1 ≤ dn && dn ≤ 31 then some (yn, mn, dn) else none
    | _, _, _ => none
  | _ => none

/-- French month names as produced by `toLocaleDateString("fr-FR",
month: "long")`. -/
def frenchMonthName : Nat → String
  | 1 => "janvier"
  | 2 => "février"
  | 3 => "mars"
  | 4 => "avril"
  | 5 => "mai"
  | 6 => "juin"
  | 7 => "juillet"
  | 8 => "août"
  | 9 => "septembre"
  | 10 => "octobre"
  | 11 => "novembre"
  | 12 => "décembre"
  | _ => ""

/-- Embeds `formatDate` from `src/api.ts`: falsy input (null, undefined,
empty string) yields the placeholder "—"; an unparseable string is returned
unchanged; a parsed date renders as a long-form French date
(`day: "numeric", month: "long", year: "numeric"`). -/
def formatDate : DateInput → String
  | .jsNull => "—"
  | .jsUndefined => "—"
  | .str s =>
    if s = "" then "—"
    else
      match parseISODate s with
      | none => s
      | some (y, m, d) =>
        toString d ++ " " ++ frenchMonthName m ++ " " ++ toString y

/-- Applies `formatDate` to a decoded nullable JSON string field. -/
def formatDateOpt (o : Option String) : String :=
  formatDate (match o with | none => .jsNull | some s => .str s)

/-- Embeds the `ApiError` class from `src/api.ts`: a typed failure carrying
the numeric HTTP status and a message. -/
structure ApiError where
  status : Nat
  message : String
deriving DecidableEq

/-- An upstream HTTP exchange as seen by `fetchAPI` after the request:
the response status, the body text when readable (`none` models a
`response.text()` rejection), and the decoded JSON body of type `α`. -/
structure HttpReply (α : Type) where
  status : Nat
  bodyText : Option String
  json : α

/-- Models the Fetch API's `Response.ok` predicate: status in 200..299. -/
def respOk (status : Nat) : Bool := decide (200 ≤ status) && decide (status ≤ 299)

/-- Embeds the response half of `fetchAPI`: a non-ok status throws an
`ApiError` carrying the status and the body text (or the placeholder
"Unknown error" when the body cannot be read); an ok status returns the
parsed JSON body. -/
def fetchAPIResult {α : Type} (r : HttpReply α) : Except ApiError α :=
  if respOk r.status then .ok r.json
  else .error ⟨r.status, "API " ++ toString r.status ++ ": " ++ r.bodyText.getD "Unknown error"⟩

/-- A query-parameter value: `string | number | boolean | undefined`
(numbers restricted to integers, which is all the tools pass). -/
inductive ParamValue where
  | str (s : String)
  | num (n : Int)
  | bool (b : Bool)
  | undef
deriving DecidableEq

/-- Models JavaScript `String(value)` on a defined parameter value. -/
def stringifyParam : ParamValue → String
  | .str s => s
  | .num n => toString n
  | .bool true => "true"
  | .bool false => "false"
  | .undef => "undefined"

/-- The guard in `fetchAPI`'s query loop:
`value !== undefined && value !== ""`. -/
def includeParam : ParamValue → Bool
  | .undef => false
  | .str s => !(s == "")
  | .num _ => true
  | .bool _ => true

/-- Embeds `fetchAPI`'s query construction: each entry whose value passes
the guard is set on the URL, stringified; the rest are omitted. -/
def buildQuery (params : List (String × ParamValue)) : List (String × String) :=
  params.filterMap
    (fun kv => if includeParam kv.2 then some (kv.1, stringifyParam kv.2) else none)

end Api

/-- Pagination envelope shared by all list responses. -/
structure Pagination where
  page : Int
  limit : Int
  total : Int
  totalPages : Int
deriving DecidableEq

/-- The pagination hint line every list tool pushes when
`page < totalPages`. -/
def nextPageHint (p : Pagination) : String :=
  "_Page suivante : page=" ++ toString (p.page + 1) ++ "_"

namespace Affairs

/-- A press source attached to an affair. -/
structure Source where
  id : String
  url : String
  title : String
  publisher : String
  publishedAt : Option String
deriving DecidableEq

/-- A party reference (shortName, name). -/
structure PartyRef where
  shortName : String
  name : String
deriving DecidableEq

/-- A party reference with display color. -/
structure PartyRefColor where
  shortName : String
  name : String
  color : String
deriving DecidableEq

/-- The affair fields shared by `AffairListItem` and the items of
`PoliticianAffairsResponse.affairs` (the argument type of
`formatAffairDetail`). -/
structure Affair where
  id : String
  slug : String
  title : String
  description : String
  status : String
  category : String
  factsDate : Option String
  startDate : String
  verdictDate : Option String
  sentence : Option String
  appeal : Option String
  partyAtTime : Option PartyRef
  sources : List Source
deriving DecidableEq

/-- The politician block of an affair list item. -/
structure AffairPolitician where
  id : String
  slug : String
  fullName : String
  currentParty : Option PartyRef
deriving DecidableEq

/-- An item of the `/api/affaires` list response. -/
structure AffairListItem extends Affair where
  politician : AffairPolitician
deriving DecidableEq

/-- The `/api/affaires` response. -/
structure AffairListResponse where
  data : List AffairListItem
  pagination : Pagination
deriving DecidableEq

/-- The politician block of `/api/politiques/:slug/affaires`. -/
structure AffairsPolitician where
  id : String
  slug : String
  fullName : String
  firstName : String
  lastName : String
  photoUrl : Option String
  party : Option PartyRefColor
deriving DecidableEq

/-- The `/api/politiques/:slug/affaires` response. -/
structure PoliticianAffairsResponse where
  politician : AffairsPolitician
  affairs : List Affair
  total : Int
deriving DecidableEq

/-- The fixed presumption-of-innocence disclaimer from
`src/tools/affairs.ts`. -/
def PRESUMPTION_NOTICE : String :=
  "**Rappel** : Toute personne mise en examen est présumée innocente jusqu\x27à ce que sa culpabilité ait été établie par une décision de justice définitive."

/-- The affair status label table of `src/tools/affairs.ts`. -/
def statusLabels : List (String × String) :=
  [("ENQUETE_PRELIMINAIRE", "Enquête préliminaire"),
   ("MISE_EN_EXAMEN", "Mise en examen"),
   ("PROCES_EN_COURS", "Procès en cours"),
   ("CONDAMNATION_PREMIERE_INSTANCE", "Condamnation (1ère instance)"),
   ("CONDAMNATION_DEFINITIVE", "Condamnation définitive"),
   ("APPEL_EN_COURS", "Appel en cours"),
   ("RELAXE", "Relaxe"),
   ("NON_LIEU", "Non-lieu"),
   ("PRESCRIPTION", "Prescription")]

/-- Embeds `formatStatus`: label lookup with raw-code fallback
(`labels[status] || status`; every label is nonempty, so `||` is the
`undefined` fallback). -/
def formatStatus (status : String) : String :=
  (statusLabels.lookup status).getD status

/-- The affair category label table of `src/tools/affairs.ts`. -/
def categoryLabels : List (String × String) :=
  [("CORRUPTION", "Corruption"),
   ("FRAUDE_FISCALE", "Fraude fiscale"),
   ("BLANCHIMENT", "Blanchiment"),
   ("TRAFIC_INFLUENCE", "Trafic d\x27influence"),
   ("PRISE_ILLEGALE_INTERET", "Prise illégale d\x27intérêts"),
   ("VIOLENCE", "Violence"),
   ("HARCELEMENT_SEXUEL", "Harcèlement sexuel"),
   ("AGRESSION_SEXUELLE", "Agression sexuelle"),
   ("VIOL", "Viol"),
   ("DIFFAMATION", "Diffamation"),
   ("ABUS_BIENS_SOCIAUX", "Abus de biens sociaux"),
   ("DETOURNEMENT_FONDS", "Détournement de fonds"),
   ("EMPLOI_FICTIF", "Emploi fictif"),
   ("FINANCEMENT_ILLEGAL", "Financement illégal"),
   ("HARCELEMENT_MORAL", "Harcèlement moral"),
   ("MENACE", "Menace"),
   ("OUTRAGE", "Outrage"),
   ("RECEL", "Recel")]

/-- Embeds `formatCategory`: label lookup with raw-code fallback. -/
def formatCategory (category : String) : String :=
  (categoryLabels.lookup category).getD category

/-- The unresolved-status set of `needsPresumption`. -/
def unresolvedStatuses : List String :=
  ["ENQUETE_PRELIMINAIRE", "MISE_EN_EXAMEN", "PROCES_EN_COURS", "APPEL_EN_COURS"]

/-- Embeds `needsPresumption`. -/
def needsPresumption (status : String) : Bool :=
  unresolvedStatuses.contains status

/-- One source bullet line of `formatAffairDetail`. -/
def sourceLine (s : Source) : String :=
  "- [" ++ s.title ++ "](" ++ s.url ++ ") — " ++ s.publisher ++
    (if truthyOpt s.publishedAt then " (" ++ Api.formatDateOpt s.publishedAt ++ ")" else "")

/-- The optional party-at-the-time line of `formatAffairDetail`. -/
def partyAtTimeLines (pt : Option PartyRef) : List String :=
  match pt with
  | some pt => ["**Parti au moment des faits** : " ++ pt.name ++ " (" ++ pt.shortName ++ ")"]
  | none => []

/-- Embeds `formatAffairDetail` as its pushed line list (the source joins
these lines with a newline). -/
def formatAffairDetailLines (a : Affair) (politicianName : Option String) : List String :=
  ["### " ++ a.title]
  ++ (if truthyOpt politicianName then ["**Politicien** : " ++ politicianName.getD ""] else [])
  ++ ["**Statut** : " ++ formatStatus a.status,
      "**Catégorie** : " ++ formatCategory a.category]
  ++ (if truthyOpt a.factsDate then ["**Date des faits** : " ++ Api.formatDateOpt a.factsDate] else [])
  ++ (if !(a.startDate == "") then ["**Début de procédure** : " ++ Api.formatDate (.str a.startDate)] else [])
  ++ (if truthyOpt a.verdictDate then ["**Verdict** : " ++ Api.formatDateOpt a.verdictDate] else [])
  ++ (if truthyOpt a.sentence then ["**Peine** : " ++ a.sentence.getD ""] else [])
  ++ (if truthyOpt a.appeal then ["**Appel** : " ++ a.appeal.getD ""] else [])
  ++ partyAtTimeLines a.partyAtTime
  ++ ["", a.description]
  ++ (if a.sources.length > 0 then ["", "**Sources** :"] ++ a.sources.map sourceLine else [])
  ++ (if needsPresumption a.status then ["", PRESUMPTION_NOTICE] else [])

/-- The `politicianName` argument `list_affairs` passes for an item:
the full name followed by the current party's short name when present. -/
def politicianLabel (p : AffairPolitician) : String :=
  p.fullName ++ (match p.currentParty with
    | some party => " (" ++ party.shortName ++ ")"
    | none => "")

/-- Embeds the `list_affairs` handler's narrative as its flattened line
list: a pagination header, each affair's detail block followed by a
separator, and the next-page hint when more pages exist. -/
def listAffairsLines (d : AffairListResponse) : List String :=
  ["**" ++ toString d.pagination.total ++ " affaires** (page " ++
     toString d.pagination.page ++ "/" ++ toString d.pagination.totalPages ++ ")", ""]
  ++ d.data.flatMap
      (fun x => formatAffairDetailLines x.toAffair (some (politicianLabel x.politician))
        ++ ["", "---", ""])
  ++ (if d.pagination.page < d.pagination.totalPages then [nextPageHint d.pagination] else [])

/-- The party suffix of the `get_politician_affairs` heading. -/
def politicianPartySuffix (p : Option PartyRefColor) : String :=
  match p with
  | some party => " (" ++ party.name ++ ")"
  | none => ""

/-- Embeds the `get_politician_affairs` handler's narrative as its
flattened line list: heading, affair count, a single presumption notice
when any affair has an unresolved status, each affair's detail block with
separator, and the canonical URL. -/
def politicianAffairsLines (d : PoliticianAffairsResponse) : List String :=
  ["# Affaires judiciaires — " ++ d.politician.fullName ++ politicianPartySuffix d.politician.party,
   "**" ++ toString d.total ++ " affaire(s)**", ""]
  ++ (if d.affairs.any (fun a => needsPresumption a.status) then [PRESUMPTION_NOTICE, ""] else [])
  ++ d.affairs.flatMap (fun a => formatAffairDetailLines a none ++ ["", "---", ""])
  ++ ["https://poligraph.fr/politiques/" ++ d.politician.slug]

end Affairs

namespace Votes

/-- An item of the `/api/votes` list response. -/
structure ScrutinListItem where
  id : String
  externalId : String
  title : String
  votingDate : String
  legislature : Int
  votesFor : Int
  votesAgainst : Int
  votesAbstain : Int
  result : String
  sourceUrl : String
  totalVotes : Int
deriving DecidableEq

/-- The `/api/votes` response. -/
structure VoteListResponse where
  data : List ScrutinListItem
  pagination : Pagination
deriving DecidableEq

/-- Per-party vote statistics from `/api/votes/stats`. -/
structure PartyStats where
  partyId : String
  partyName : String
  partyShortName : String
  partyColor : String
  partySlug : String
  totalVotes : Int
  pour : Int
  contre : Int
  abstention : Int
  nonVotant : Int
  absent : Int
  cohesionRate : ℚ
  participationRate : ℚ
deriving DecidableEq

/-- A divisive scrutin from `/api/votes/stats`. -/
structure DivisiveScrutin where
  id : String
  slug : String
  title : String
  votingDate : String
  chamber : String
  votesFor : Int
  votesAgainst : Int
  votesAbstain : Int
  divisionScore : ℚ
deriving DecidableEq

/-- The global block of `/api/votes/stats`. -/
structure VoteStatsGlobal where
  totalScrutins : Int
  totalVotes : Int
  totalVotesFor : Int
  totalVotesAgainst : Int
  totalVotesAbstain : Int
  participationRate : ℚ
  adoptes : Int
  rejetes : Int
deriving DecidableEq

/-- The `/api/votes/stats` response. -/
structure VoteStatsResponse where
  parties : List PartyStats
  divisiveScrutins : List DivisiveScrutin
  global : VoteStatsGlobal
deriving DecidableEq

/-- The politician block shared by the votes responses. -/
structure VotesPolitician where
  id : String
  slug : String
  fullName : String
  firstName : String
  lastName : String
  photoUrl : Option String
  party : Option Affairs.PartyRefColor
deriving DecidableEq

/-- The per-politician vote tallies of `/api/politiques/:slug/votes`. -/
structure VotesStats where
  total : Int
  pour : Int
  contre : Int
  abstention : Int
  nonVotant : Int
  absent : Int
  participationRate : ℚ
deriving DecidableEq

/-- The scrutin block of an individual vote record. -/
structure VoteScrutin where
  id : String
  externalId : String
  title : String
  votingDate : String
  legislature : Int
  votesFor : Int
  votesAgainst : Int
  votesAbstain : Int
  result : String
  sourceUrl : String
deriving DecidableEq

/-- An individual vote record of `/api/politiques/:slug/votes`. -/
structure VoteRecord where
  id : String
  position : String
  scrutin : VoteScrutin
deriving DecidableEq

/-- The `/api/politiques/:slug/votes` response. -/
structure PoliticianVotesResponse where
  politician : VotesPolitician
  stats : VotesStats
  votes : List VoteRecord
  pagination : Pagination
deriving DecidableEq

/-- Embeds `formatResult` from `src/tools/votes.ts`: a strict ternary, not
a lookup table — every input other than "ADOPTED" renders as "Rejeté". -/
def formatResult (result : String) : String :=
  if result = "ADOPTED" then "Adopté" else "Rejeté"

/-- The vote position label table of `src/tools/votes.ts`. -/
def positionLabels : List (String × String) :=
  [("POUR", "Pour"),
   ("CONTRE", "Contre"),
   ("ABSTENTION", "Abstention"),
   ("NON_VOTANT", "Non votant"),
   ("ABSENT", "Absent")]

/-- Embeds `formatPosition` (vote positions): lookup with raw fallback. -/
def formatPosition (position : String) : String :=
  (positionLabels.lookup position).getD position

/-- The two lines a scrutin contributes to the `list_votes` narrative. -/
def scrutinLines (s : ScrutinListItem) : List String :=
  ["- **" ++ s.title ++ "** (" ++ Api.formatDate (.str s.votingDate) ++ ")",
   "  " ++ formatResult s.result ++ " — Pour: " ++ toString s.votesFor ++
     ", Contre: " ++ toString s.votesAgainst ++ ", Abstention: " ++ toString s.votesAbstain]

/-- Embeds the `list_votes` handler's narrative line list. -/
def listVotesLines (d : VoteListResponse) : List String :=
  ["**" ++ toString d.pagination.total ++ " scrutins** (page " ++
     toString d.pagination.page ++ "/" ++ toString d.pagination.totalPages ++ ")", ""]
  ++ d.data.flatMap scrutinLines
  ++ (if d.pagination.page < d.pagination.totalPages then ["", nextPageHint d.pagination] else [])

/-- The "Pour" percentage of `get_politician_votes`: the division is
guarded by the truthiness of `stats.total` (`s.total ? round(...) : 0`). -/
def pourPct (s : VotesStats) : Int :=
  if s.total ≠ 0 then jsRound (((s.pour : ℚ) / (s.total : ℚ)) * 100) else 0

/-- The "Contre" percentage, with the same zero-total guard. -/
def contrePct (s : VotesStats) : Int :=
  if s.total ≠ 0 then jsRound (((s.contre : ℚ) / (s.total : ℚ)) * 100) else 0

/-- The "Pour" statistics line of `get_politician_votes`. -/
def pourLine (s : VotesStats) : String :=
  "- **Pour** : " ++ toString s.pour ++ " (" ++ toString (pourPct s) ++ "%)"

/-- The "Contre" statistics line of `get_politician_votes`. -/
def contreLine (s : VotesStats) : String :=
  "- **Contre** : " ++ toString s.contre ++ " (" ++ toString (contrePct s) ++ "%)"

/-- The two lines a vote record contributes to the `get_politician_votes`
narrative. -/
def voteRecordLines (v : VoteRecord) : List String :=
  ["- **" ++ v.scrutin.title ++ "** (" ++ Api.formatDate (.str v.scrutin.votingDate) ++ ")",
   "  Vote : " ++ formatPosition v.position ++ " — Résultat : " ++ formatResult v.scrutin.result]

/-- Embeds the `get_politician_votes` handler's narrative line list. -/
def politicianVotesLines (d : PoliticianVotesResponse) : List String :=
  ["# Votes — " ++ d.politician.fullName ++ Affairs.politicianPartySuffix d.politician.party, ""]
  ++ ["## Statistiques",
      "- **Total** : " ++ toString d.stats.total ++ " votes",
      pourLine d.stats,
      contreLine d.stats,
      "- **Abstention** : " ++ toString d.stats.abstention,
      "- **Absent** : " ++ toString d.stats.absent,
      "- **Taux de participation** : " ++ toString d.stats.participationRate ++ "%", ""]
  ++ ["## Derniers votes (page " ++ toString d.pagination.page ++ "/" ++
        toString d.pagination.totalPages ++ ")"]
  ++ d.votes.flatMap voteRecordLines
  ++ (if d.pagination.page < d.pagination.totalPages then ["", nextPageHint d.pagination] else [])

/-- Inserts a party into a list sorted by non-increasing cohesion rate,
keeping existing elements first on ties (stability). -/
def insertPartyDesc (p : PartyStats) : List PartyStats → List PartyStats
  | [] => [p]
  | q :: qs =>
    if q.cohesionRate < p.cohesionRate then p :: q :: qs
    else q :: insertPartyDesc p qs

/-- Models `[...data.parties].sort((a, b) => b.cohesionRate -
a.cohesionRate)`: a stable sort by non-increasing cohesion rate
(`Array.prototype.sort` is stable per ES2019). -/
def sortPartiesByCohesionDesc (l : List PartyStats) : List PartyStats :=
  l.foldr insertPartyDesc []

/-- The cohesion bullet line of the `get_vote_stats` narrative. -/
def partyCohesionLine (p : PartyStats) : String :=
  "- **" ++ p.partyShortName ++ "** (" ++ p.partyName ++ ") : " ++
    toString p.cohesionRate ++ "% de cohésion (" ++ toString p.totalVotes ++ " votes)"

/-- The two lines a divisive scrutin contributes to the narrative. -/
def divisiveLines (s : DivisiveScrutin) : List String :=
  ["- **" ++ s.title ++ "** (" ++ Api.formatDate (.str s.votingDate) ++ ")",
   "  Pour: " ++ toString s.votesFor ++ ", Contre: " ++ toString s.votesAgainst ++
     ", Abstention: " ++ toString s.votesAbstain ++ " — Score de division : " ++
     toString s.divisionScore ++ "%"]

/-- The chamber heading label of `get_vote_stats`. -/
def chamberLabel (chamber : Option String) : String :=
  if chamber = some "AN" then "Assemblée nationale"
  else if chamber = some "SENAT" then "Sénat"
  else "Toutes chambres"

/-- Embeds the `get_vote_stats` handler's narrative line list: global
block, parties sorted by descending cohesion, and the first ten divisive
scrutins (in upstream order) when any exist. -/
def getVoteStatsLines (chamber : Option String) (d : VoteStatsResponse) : List String :=
  ["# Statistiques de vote — " ++ chamberLabel chamber, ""]
  ++ ["## Vue globale",
      "- **Total scrutins** : " ++ toString d.global.totalScrutins,
      "- **Total votes** : " ++ toString d.global.totalVotes,
      "- Pour : " ++ toString d.global.totalVotesFor,
      "- Contre : " ++ toString d.global.totalVotesAgainst,
      "- Abstention : " ++ toString d.global.totalVotesAbstain,
      "- **Adoptés** : " ++ toString d.global.adoptes ++ " — **Rejetés** : " ++
        toString d.global.rejetes,
      "- **Taux de participation** : " ++ toString d.global.participationRate ++ "%", ""]
  ++ ["## Cohésion par parti"]
  ++ (sortPartiesByCohesionDesc d.parties).map partyCohesionLine
  ++ [""]
  ++ (if d.divisiveScrutins.length > 0 then
        ["## Scrutins les plus divisifs"] ++ (d.divisiveScrutins.take 10).flatMap divisiveLines
      else [])

/-- A party entry of the `get_vote_stats` structured payload. -/
structure PartyStatsProj where
  shortName : String
  name : String
  cohesionRate : ℚ
  participationRate : ℚ
  totalVotes : Int
deriving DecidableEq

/-- Embeds the `parties` field of the `get_vote_stats` structured payload:
a projection of the upstream list, in upstream order (`data.parties.map`,
not the sorted copy). -/
def voteStatsStructuredParties (d : VoteStatsResponse) : List PartyStatsProj :=
  d.parties.map (fun p =>
    ⟨p.partyShortName, p.partyName, p.cohesionRate, p.participationRate, p.totalVotes⟩)

/-- A divisive-scrutin entry of the structured payload. -/
structure DivisiveProj where
  title : String
  votingDate : String
  votesFor : Int
  votesAgainst : Int
  votesAbstain : Int
  divisionScore : ℚ
deriving DecidableEq

/-- Embeds the `divisiveScrutins` field of the structured payload:
`data.divisiveScrutins.slice(0, 10)` projected, in upstream order. -/
def voteStatsStructuredDivisive (d : VoteStatsResponse) : List DivisiveProj :=
  (d.divisiveScrutins.take 10).map (fun s =>
    ⟨s.title, s.votingDate, s.votesFor, s.votesAgainst, s.votesAbstain, s.divisionScore⟩)

end Votes

namespace Politicians

/-- An item of the `/api/politiques` list response. -/
structure PoliticianListItem where
  id : String
  slug : String
  fullName : String
  firstName : String
  lastName : String
  civility : String
  birthDate : String
  deathDate : Option String
  birthPlace : String
  photoUrl : Option String
  currentParty : Option Affairs.PartyRefColor
deriving DecidableEq

/-- The `/api/politiques` response. -/
structure PoliticianListResponse where
  data : List PoliticianListItem
  pagination : Pagination
deriving DecidableEq

/-- The mandate type label table of `src/tools/politicians.ts`
(keyed `PRESIDENT`, no `PRESIDENT_REPUBLIQUE`, no `ADJOINT_MAIRE`). -/
def mandateTypeLabels : List (String × String) :=
  [("DEPUTE", "Député(e)"),
   ("SENATEUR", "Sénateur/trice"),
   ("DEPUTE_EUROPEEN", "Député(e) européen(ne)"),
   ("PRESIDENT", "Président(e) de la République"),
   ("PREMIER_MINISTRE", "Premier(e) ministre"),
   ("MINISTRE", "Ministre"),
   ("MINISTRE_DELEGUE", "Ministre délégué(e)"),
   ("SECRETAIRE_ETAT", "Secrétaire d\x27État"),
   ("MAIRE", "Maire"),
   ("PRESIDENT_REGION", "Président(e) de région"),
   ("PRESIDENT_DEPARTEMENT", "Président(e) de département"),
   ("CONSEILLER_REGIONAL", "Conseiller/ère régional(e)"),
   ("CONSEILLER_DEPARTEMENTAL", "Conseiller/ère départemental(e)"),
   ("CONSEILLER_MUNICIPAL", "Conseiller/ère municipal(e)"),
   ("PRESIDENT_PARTI", "Président(e) de parti")]

/-- Embeds `formatMandateType` of `src/tools/politicians.ts`. -/
def formatMandateType (type : String) : String :=
  (mandateTypeLabels.lookup type).getD type

/-- The relation type label table of `src/tools/politicians.ts`. -/
def relationTypeLabels : List (String × String) :=
  [("SAME_GOVERNMENT", "Même gouvernement"),
   ("SHARED_COMPANY", "Entreprises en commun"),
   ("SAME_DEPARTMENT", "Même département"),
   ("PARTY_HISTORY", "Anciens collègues de parti")]

/-- Embeds `formatRelationType` of `src/tools/politicians.ts`. -/
def formatRelationType (type : String) : String :=
  (relationTypeLabels.lookup type).getD type

/-- Embeds `formatPoliticianSummary` (the `search_politicians` bullet). -/
def formatPoliticianSummary (p : PoliticianListItem) : String :=
  "- **" ++ p.fullName ++ "**" ++
    (match p.currentParty with
     | some party => " (" ++ party.shortName ++ ")"
     | none => "") ++
    (if truthyOpt p.deathDate then " [Décédé(e)]" else "") ++
    " — /politiques/" ++ p.slug

/-- Embeds the `search_politicians` handler's narrative line list. -/
def searchPoliticiansLines (d : PoliticianListResponse) : List String :=
  ["**" ++ toString d.pagination.total ++ " résultats** (page " ++
     toString d.pagination.page ++ "/" ++ toString d.pagination.totalPages ++ ")", ""]
  ++ d.data.map formatPoliticianSummary
  ++ (if d.pagination.page < d.pagination.totalPages then ["", nextPageHint d.pagination] else [])

end Politicians

namespace Mandates

/-- An item of the `/api/mandats` list response. -/
structure MandateItem where
  id : String
  type : String
  title : String
  institution : Option String
  role : Option String
  constituency : Option String
  departmentCode : Option String
  startDate : String
  endDate : Option String
  isCurrent : Bool
  politicianSlug : String
  politicianFullName : String
deriving DecidableEq

/-- The `/api/mandats` response. -/
structure MandateListResponse where
  data : List MandateItem
  pagination : Pagination
deriving DecidableEq

/-- The mandate type label table of `src/tools/mandates.ts` (keyed
`PRESIDENT_REPUBLIQUE` for the presidency, with `ADJOINT_MAIRE`, and no
plain `PRESIDENT` key). -/
def mandateTypeLabels : List (String × String) :=
  [("DEPUTE", "Député(e)"),
   ("SENATEUR", "Sénateur/trice"),
   ("DEPUTE_EUROPEEN", "Député(e) européen(ne)"),
   ("PRESIDENT_REPUBLIQUE", "Président(e) de la République"),
   ("PREMIER_MINISTRE", "Premier(e) ministre"),
   ("MINISTRE", "Ministre"),
   ("MINISTRE_DELEGUE", "Ministre délégué(e)"),
   ("SECRETAIRE_ETAT", "Secrétaire d\x27État"),
   ("MAIRE", "Maire"),
   ("ADJOINT_MAIRE", "Adjoint(e) au maire"),
   ("PRESIDENT_REGION", "Président(e) de région"),
   ("PRESIDENT_DEPARTEMENT", "Président(e) de département"),
   ("CONSEILLER_REGIONAL", "Conseiller/ère régional(e)"),
   ("CONSEILLER_DEPARTEMENTAL", "Conseiller/ère départemental(e)"),
   ("CONSEILLER_MUNICIPAL", "Conseiller/ère municipal(e)"),
   ("PRESIDENT_PARTI", "Président(e) de parti")]

/-- Embeds `formatMandateType` of `src/tools/mandates.ts`. -/
def formatMandateType (type : String) : String :=
  (mandateTypeLabels.lookup type).getD type

/-- The three lines a mandate contributes to the `list_mandates`
narrative. -/
def mandateLines (m : MandateItem) : List String :=
  ["- **" ++ m.politicianFullName ++ "** : " ++ formatMandateType m.type ++
     (match m.institution with
      | some i => if i ≠ "" then " — " ++ i else ""
      | none => "") ++
     (match m.constituency with
      | some c => if c ≠ "" then " — " ++ c else ""
      | none => ""),
   "  " ++ (if m.isCurrent then "En cours"
            else "Terminé (" ++ Api.formatDateOpt m.endDate ++ ")") ++
     " — depuis " ++ Api.formatDate (.str m.startDate),
   "  /politiques/" ++ m.politicianSlug]

/-- Embeds the `list_mandates` handler's narrative line list. -/
def listMandatesLines (d : MandateListResponse) : List String :=
  ["**" ++ toString d.pagination.total ++ " mandats** (page " ++
     toString d.pagination.page ++ "/" ++ toString d.pagination.totalPages ++ ")", ""]
  ++ d.data.flatMap mandateLines
  ++ (if d.pagination.page < d.pagination.totalPages then ["", nextPageHint d.pagination] else [])

end Mandates

namespace Parties

/-- An item of the `/api/partis` list response. -/
structure PartyListItem where
  id : String
  slug : String
  name : String
  shortName : String
  color : String
  politicalPosition : Option String
  logoUrl : Option String
  foundedDate : Option String
  dissolvedDate : Option String
  website : Option String
  memberCount : Int
deriving DecidableEq

/-- The `/api/partis` response. -/
structure PartyListResponse where
  data : List PartyListItem
  pagination : Pagination
deriving DecidableEq

/-- The political position label table of the parties module. -/
def positionLabels : List (String × String) :=
  [("FAR_LEFT", "Extrême gauche"),
   ("LEFT", "Gauche"),
   ("CENTER_LEFT", "Centre-gauche"),
   ("CENTER", "Centre"),
   ("CENTER_RIGHT", "Centre-droit"),
   ("RIGHT", "Droite"),
   ("FAR_RIGHT", "Extrême droite")]

/-- Embeds the parties module's `formatPosition`: null renders as
"Non classé", otherwise lookup with raw fallback. -/
def formatPosition (position : Option String) : String :=
  match position with
  | none => "Non classé"
  | some p => (positionLabels.lookup p).getD p

/-- The mandate type label table of the parties module (keyed `PRESIDENT`,
without the councillor entries of the politicians module). -/
def mandateTypeLabels : List (String × String) :=
  [("DEPUTE", "Député(e)"),
   ("SENATEUR", "Sénateur/trice"),
   ("DEPUTE_EUROPEEN", "Député(e) européen(ne)"),
   ("PRESIDENT", "Président(e) de la République"),
   ("PREMIER_MINISTRE", "Premier(e) ministre"),
   ("MINISTRE", "Ministre"),
   ("MINISTRE_DELEGUE", "Ministre délégué(e)"),
   ("SECRETAIRE_ETAT", "Secrétaire d\x27État"),
   ("MAIRE", "Maire"),
   ("PRESIDENT_REGION", "Président(e) de région"),
   ("PRESIDENT_DEPARTEMENT", "Président(e) de département"),
   ("PRESIDENT_PARTI", "Président(e) de parti")]

/-- Embeds `formatMandateType` of the parties module. -/
def formatMandateType (type : String) : String :=
  (mandateTypeLabels.lookup type).getD type

/-- The two lines a party contributes to the `list_parties` narrative. -/
def partyLines (p : PartyListItem) : List String :=
  ["- **" ++ p.name ++ "** (" ++ p.shortName ++ ") — " ++
     formatPosition p.politicalPosition ++ ", " ++ toString p.memberCount ++
     " membre(s)" ++ (if truthyOpt p.dissolvedDate then " [Dissous]" else ""),
   "  /partis/" ++ p.slug]

/-- Embeds the `list_parties` handler's narrative line list. -/
def listPartiesLines (d : PartyListResponse) : List String :=
  ["**" ++ toString d.pagination.total ++ " partis** (page " ++
     toString d.pagination.page ++ "/" ++ toString d.pagination.totalPages ++ ")", ""]
  ++ d.data.flatMap partyLines
  ++ (if d.pagination.page < d.pagination.totalPages then ["", nextPageHint d.pagination] else [])

end Parties

namespace Search

/-- The mandate type label table of the advanced-search module (keyed
`PRESIDENT`, without councillor or party-president entries). -/
def mandateTypeLabels : List (String × String) :=
  [("DEPUTE", "Député(e)"),
   ("SENATEUR", "Sénateur/trice"),
   ("DEPUTE_EUROPEEN", "Député(e) européen(ne)"),
   ("PRESIDENT", "Président(e) de la République"),
   ("PREMIER_MINISTRE", "Premier(e) ministre"),
   ("MINISTRE", "Ministre"),
   ("MINISTRE_DELEGUE", "Ministre délégué(e)"),
   ("SECRETAIRE_ETAT", "Secrétaire d\x27État"),
   ("MAIRE", "Maire"),
   ("PRESIDENT_REGION", "Président(e) de région"),
   ("PRESIDENT_DEPARTEMENT", "Président(e) de département")]

/-- Embeds `formatMandateType` of the advanced-search module. -/
def formatMandateType (type : String) : String :=
  (mandateTypeLabels.lookup type).getD type

end Search

namespace FactChecks

/-- The verdict rating label table of the fact-checks module. -/
def verdictLabels : List (String × String) :=
  [("TRUE", "Vrai"),
   ("MOSTLY_TRUE", "Plutôt vrai"),
   ("HALF_TRUE", "À moitié vrai"),
   ("MISLEADING", "Trompeur"),
   ("OUT_OF_CONTEXT", "Hors contexte"),
   ("MOSTLY_FALSE", "Plutôt faux"),
   ("FALSE", "Faux"),
   ("UNVERIFIABLE", "Invérifiable")]

/-- Embeds `formatVerdict` of the fact-checks module. -/
def formatVerdict (rating : String) : String :=
  (verdictLabels.lookup rating).getD rating

end FactChecks

namespace Departments

/-- A party tally entry from `/api/stats/departments`. -/
structure PartyCount where
  id : String
  name : String
  shortName : String
  color : Option String
  count : Int
deriving DecidableEq

/-- Per-department statistics from `/api/stats/departments`. -/
structure DepartmentStats where
  code : String
  name : String
  region : String
  totalElus : Int
  deputes : Int
  senateurs : Int
  dominantParty : Option PartyCount
  parties : List PartyCount
deriving DecidableEq

/-- The `/api/stats/departments` response. -/
structure DepartmentStatsResponse where
  departments : List DepartmentStats
  totalDepartments : Int
  totalElus : Int
  totalDeputes : Int
  totalSenateurs : Int
  filter : String
deriving DecidableEq

/-- Models one `partyDominance.set(key, (partyDominance.get(key) || 0) + 1)`
step on an insertion-ordered association list (JavaScript `Map` preserves
insertion order). -/
def tallyDominant : List (String × Nat) → String → List (String × Nat)
  | [], k => [(k, 1)]
  | (k', v) :: rest, k =>
    if k' = k then (k', v + 1) :: rest else (k', v) :: tallyDominant rest k

/-- Embeds the `partyDominance` aggregation of `get_department_stats`:
tallies, over all departments in the response, the short name of each
non-null `dominantParty`. -/
def partyDominance (departments : List DepartmentStats) : List (String × Nat) :=
  departments.foldl
    (fun m d =>
      match d.dominantParty with
      | some p => tallyDominant m p.shortName
      | none => m)
    []

/-- The sum of the values of the `partyDominance` mapping. -/
def sumCounts (m : List (String × Nat)) : Nat :=
  (m.map Prod.snd).sum

end Departments

/-- The mandate type codes present in both the politicians-module table
and the mandates-module table (every shared key; the presidency is keyed
differently in the two tables and `ADJOINT_MAIRE` exists only in the
mandates table). -/
def commonMandateCodes : List String :=
  ["DEPUTE", "SENATEUR", "DEPUTE_EUROPEEN", "PREMIER_MINISTRE", "MINISTRE",
   "MINISTRE_DELEGUE", "SECRETAIRE_ETAT", "MAIRE", "PRESIDENT_REGION",
   "PRESIDENT_DEPARTEMENT", "CONSEILLER_REGIONAL", "CONSEILLER_DEPARTEMENTAL",
   "CONSEILLER_MUNICIPAL", "PRESIDENT_PARTI"]

/-- Composes `fetchAPI` with the `list_affairs` narrative: an adapter
failure propagates unchanged to the tool result. -/
def runListAffairs (r : Except Api.ApiError Affairs.AffairListResponse) :
    Except Api.ApiError (List String) :=
  r.map Affairs.listAffairsLines

/-- A concrete affair under judicial investigation (status
`MISE_EN_EXAMEN`), with all optional fields absent. -/
def exAffairMise : Affairs.Affair :=
  { id := "a1", slug := "affaire-exemple", title := "Affaire exemple",
    description := "Une description.", status := "MISE_EN_EXAMEN",
    category := "CORRUPTION", factsDate := none, startDate := "",
    verdictDate := none, sentence := none, appeal := none,
    partyAtTime := none, sources := [] }

/-- A concrete single-politician affairs response containing exactly one
affair, whose status is in the unresolved set. -/
def exPoliticianAffairs : Affairs.PoliticianAffairsResponse :=
  { politician :=
      { id := "p1", slug := "jean-exemple", fullName := "Jean Exemple",
        firstName := "Jean", lastName := "Exemple", photoUrl := none,
        party := none },
    affairs := [exAffairMise],
    total := 1 }

/-- A concrete affair with a definitive conviction. -/
def exAffairCondamnation : Affairs.Affair :=
  { id := "a2", slug := "affaire-close", title := "Affaire close",
    description := "Une autre description.", status := "CONDAMNATION_DEFINITIVE",
    category := "FRAUDE_FISCALE", factsDate := none, startDate := "",
    verdictDate := none, sentence := none, appeal := none,
    partyAtTime := none, sources := [] }

/-- A concrete `/api/affaires` list response with one unresolved and one
definitively judged affair, and a further page available. -/
def exAffairList : Affairs.AffairListResponse :=
  { data :=
      [{ toAffair := exAffairMise,
         politician := { id := "p1", slug := "jean-exemple",
                         fullName := "Jean Exemple", currentParty := none } },
       { toAffair := exAffairCondamnation,
         politician := { id := "p2", slug := "anne-exemple",
                         fullName := "Anne Exemple", currentParty := none } }],
    pagination := { page := 1, limit := 20, total := 42, totalPages := 3 } }

/-- Concrete per-politician vote tallies with `total = 0` (a politician
with no recorded votes). -/
def exZeroStats : Votes.VotesStats :=
  { total := 0, pour := 5, contre := 3, abstention := 1, nonVotant := 0,
    absent := 2, participationRate := 0 }

/-- A concrete `/api/votes/stats` response whose upstream party list is in
strictly increasing cohesion order and whose divisive scrutins arrive in
increasing division-score order. -/
def exVoteStats : Votes.VoteStatsResponse :=
  { parties :=
      [{ partyId := "1", partyName := "Parti Un", partyShortName := "P1",
         partyColor := "#111111", partySlug := "parti-un", totalVotes := 40,
         pour := 20, contre := 10, abstention := 5, nonVotant := 3,
         absent := 2, cohesionRate := 10, participationRate := 50 },
       { partyId := "2", partyName := "Parti Deux", partyShortName := "P2",
         partyColor := "#222222", partySlug := "parti-deux", totalVotes := 60,
         pour := 30, contre := 20, abstention := 5, nonVotant := 3,
         absent := 2, cohesionRate := 90, participationRate := 80 }],
    divisiveScrutins :=
      [{ id := "s1", slug := "scrutin-un", title := "Scrutin Un",
         votingDate := "", chamber := "AN", votesFor := 10,
         votesAgainst := 11, votesAbstain := 1, divisionScore := 5 },
       { id := "s2", slug := "scrutin-deux", title := "Scrutin Deux",
         votingDate := "", chamber := "AN", votesFor := 12,
         votesAgainst := 12, votesAbstain := 0, divisionScore := 95 }],
    global :=
      { totalScrutins := 2, totalVotes := 100, totalVotesFor := 22,
        totalVotesAgainst := 23, totalVotesAbstain := 1,
        participationRate := 70, adoptes := 1, rejetes := 1 } }

end Poligraph

namespace Poligraph

/-! ### String helper lemmas

Facts used to tell rendered lines apart: two strings differ when their
first characters differ, when their last characters differ, or when one
has a constant prefix the other lacks. -/

theorem str_ne_of_head_ne (s t : String) (h : s.data.head? ≠ t.data.head?) : s ≠ t :=
  fun he => h (he ▸ rfl)

theorem str_ne_of_getLast_ne (s t : String) (h : s.data.getLast? ≠ t.data.getLast?) : s ≠ t :=
  fun he => h (he ▸ rfl)

theorem head_data_append (p x : String) (c : Char) (h : p.data.head? = some c) :
    (p ++ x).data.head? = some c := by
  rw [String.data_append]
  cases hp : p.data with
  | nil => rw [hp] at h; exact absurd h (by simp)
  | cons y ys => rw [hp] at h; simpa using h

theorem getLast_data_append (p q : String) (c : Char) (h : q.data.getLast? = some c) :
    (p ++ q).data.getLast? = some c := by
  rw [String.data_append, List.getLast?_append, h]; rfl

theorem append_ne_of_take_ne (p x t : String)
    (h : p.data ≠ t.data.take p.data.length) : p ++ x ≠ t := by
  intro he
  apply h
  rw [← he, String.data_append, List.take_left]

theorem count_eq_zero_of_forall_ne (l : List String) (a : String)
    (h : ∀ x ∈ l, x ≠ a) : l.count a = 0 :=
  List.count_eq_zero.mpr (fun hm => h a hm rfl)

theorem count_ite_nil_right {c : Prop} [Decidable c] (l : List String) (a : String)
    (h : l.count a = 0) : (if c then l else []).count a = 0 := by
  split
  · exact h
  · rfl

theorem count_singleton_ne (x a : String) (h : x ≠ a) : ([x] : List String).count a = 0 :=
  count_eq_zero_of_forall_ne _ _ (by intro y hy; rw [List.mem_singleton] at hy; exact hy ▸ h)

theorem count_pair_ne (x y a : String) (hx : x ≠ a) (hy : y ≠ a) :
    ([x, y] : List String).count a = 0 :=
  count_eq_zero_of_forall_ne _ _ (by
    intro z hz
    rw [List.mem_cons, List.mem_singleton] at hz
    rcases hz with h | h
    · exact h ▸ hx
    · exact h ▸ hy)

/-! ### Lines never equal to the presumption notice

The notice starts with `'*'` and ends with `'.'`; rendered lines are told
apart from it by their first character, their last character, or a longer
constant prefix. -/

theorem notice_head : Affairs.PRESUMPTION_NOTICE.data.head? = some '*' := by decide

theorem notice_getLast : Affairs.PRESUMPTION_NOTICE.data.getLast? = some '.' := by decide

theorem line_ne_notice_head (p x : String) (c : Char) (hp : p.data.head? = some c)
    (hc : c ≠ '*') : p ++ x ≠ Affairs.PRESUMPTION_NOTICE :=
  str_ne_of_head_ne _ _ (by
    rw [head_data_append p x c hp, notice_head]
    simpa using hc)

theorem line_ne_notice_take (p x : String)
    (h : p.data ≠ Affairs.PRESUMPTION_NOTICE.data.take p.data.length) :
    p ++ x ≠ Affairs.PRESUMPTION_NOTICE :=
  append_ne_of_take_ne p x _ h

theorem line_ne_notice_getLast (s : String) (c : Char) (hs : s.data.getLast? = some c)
    (hc : c ≠ '.') : s ≠ Affairs.PRESUMPTION_NOTICE :=
  str_ne_of_getLast_ne _ _ (by
    rw [hs, notice_getLast]
    simpa using hc)

theorem sourceLine_ne_notice (s : Affairs.Source) :
    Affairs.sourceLine s ≠ Affairs.PRESUMPTION_NOTICE := by
  unfold Affairs.sourceLine
  exact line_ne_notice_head _ _ '-'
    (head_data_append _ _ _ (head_data_append _ _ _ (head_data_append _ _ _
      (head_data_append "- [" s.title '-' (by decide))))) (by decide)

theorem partyAtTimeLines_count_notice (pt : Option Affairs.PartyRef) :
    (Affairs.partyAtTimeLines pt).count Affairs.PRESUMPTION_NOTICE = 0 := by
  cases pt with
  | none => rfl
  | some p =>
    exact count_singleton_ne _ _
      (line_ne_notice_getLast _ ')' (getLast_data_append _ ")" ')' (by decide)) (by decide))

/-- Core counting fact for the presumption notice: one affair's detail
block contains the notice exactly once when its status is unresolved and
not at all otherwise (assuming the free-text description is not itself the
notice line). -/
theorem count_notice_detail (a : Affairs.Affair) (pn : Option String)
    (hd : a.description ≠ Affairs.PRESUMPTION_NOTICE) :
    (Affairs.formatAffairDetailLines a pn).count Affairs.PRESUMPTION_NOTICE
      = if Affairs.needsPresumption a.status then 1 else 0 := by
  unfold Affairs.formatAffairDetailLines
  simp only [List.count_append]
  rw [count_singleton_ne _ _ (line_ne_notice_head _ _ '#' (by decide) (by decide))]
  rw [count_ite_nil_right _ _ (count_singleton_ne _ _ (line_ne_notice_take _ _ (by decide)))]
  rw [count_pair_ne _ _ _ (line_ne_notice_take _ _ (by decide))
    (line_ne_notice_take _ _ (by decide))]
  rw [count_ite_nil_right _ _ (count_singleton_ne _ _ (line_ne_notice_take _ _ (by decide)))]
  rw [count_ite_nil_right _ _ (count_singleton_ne _ _ (line_ne_notice_take _ _ (by decide)))]
  rw [count_ite_nil_right _ _ (count_singleton_ne _ _ (line_ne_notice_take _ _ (by decide)))]
  rw [count_ite_nil_right _ _ (count_singleton_ne _ _ (line_ne_notice_take _ _ (by decide)))]
  rw [count_ite_nil_right _ _ (count_singleton_ne _ _ (line_ne_notice_take _ _ (by decide)))]
  rw [partyAtTimeLines_count_notice]
  rw [count_pair_ne _ _ _ (by decide) hd]
  rw [count_ite_nil_right _ _ (by
    rw [List.count_append]
    rw [count_pair_ne _ _ _ (by decide) (by decide)]
    rw [count_eq_zero_of_forall_ne _ _ (by
      intro x hx
      rw [List.mem_map] at hx
      obtain ⟨s, _, rfl⟩ := hx
      exact sourceLine_ne_notice s)])]
  split
  · rw [show (["", Affairs.PRESUMPTION_NOTICE] : List String).count Affairs.PRESUMPTION_NOTICE = 1
      from by decide]
  · rfl

/-- The affair blocks of `list_affairs` contain the notice exactly once
per item with an unresolved status. -/
theorem count_notice_list_blocks (items : List Affairs.AffairListItem)
    (h : ∀ x ∈ items, x.toAffair.description ≠ Affairs.PRESUMPTION_NOTICE) :
    (items.flatMap (fun x =>
        Affairs.formatAffairDetailLines x.toAffair (some (Affairs.politicianLabel x.politician))
          ++ ["", "---", ""])).count Affairs.PRESUMPTION_NOTICE
      = (items.filter (fun x => Affairs.needsPresumption x.status)).length := by
  induction items with
  | nil => rfl
  | cons x xs ih =>
    rw [List.flatMap_cons, List.count_append, List.count_append,
      count_notice_detail _ _ (h x (List.mem_cons_self x xs)),
      show (["", "---", ""] : List String).count Affairs.PRESUMPTION_NOTICE = 0 from by decide,
      List.filter_cons, ih (fun y hy => h y (List.mem_cons_of_mem x hy))]
    by_cases hp : Affairs.needsPresumption x.status
    · simp [hp, Nat.add_comm]
    · simp [hp]

/-- The affair blocks of `get_politician_affairs` contain the notice
exactly once per affair with an unresolved status. -/
theorem count_notice_politician_blocks (affairs : List Affairs.Affair)
    (h : ∀ a ∈ affairs, a.description ≠ Affairs.PRESUMPTION_NOTICE) :
    (affairs.flatMap (fun a =>
        Affairs.formatAffairDetailLines a none ++ ["", "---", ""])).count
        Affairs.PRESUMPTION_NOTICE
      = (affairs.filter (fun a => Affairs.needsPresumption a.status)).length := by
  induction affairs with
  | nil => rfl
  | cons a as ih =>
    rw [List.flatMap_cons, List.count_append, List.count_append,
      count_notice_detail _ _ (h a (List.mem_cons_self a as)),
      show (["", "---", ""] : List String).count Affairs.PRESUMPTION_NOTICE = 0 from by decide,
      List.filter_cons, ih (fun y hy => h y (List.mem_cons_of_mem a hy))]
    by_cases hp : Affairs.needsPresumption a.status
    · simp [hp, Nat.add_comm]
    · simp [hp]

theorem nextPageHint_ne_notice (p : Pagination) :
    nextPageHint p ≠ Affairs.PRESUMPTION_NOTICE := by
  unfold nextPageHint
  exact line_ne_notice_getLast _ '_' (getLast_data_append _ "_" '_' (by decide)) (by decide)

/-- Full `list_affairs` narrative: the notice appears exactly once per
qualifying item. -/
theorem count_notice_listAffairs (d : Affairs.AffairListResponse)
    (h : ∀ x ∈ d.data, x.toAffair.description ≠ Affairs.PRESUMPTION_NOTICE) :
    (Affairs.listAffairsLines d).count Affairs.PRESUMPTION_NOTICE
      = (d.data.filter (fun x => Affairs.needsPresumption x.status)).length := by
  unfold Affairs.listAffairsLines
  simp only [List.count_append]
  rw [count_pair_ne _ _ _
    (line_ne_notice_getLast _ ')' (getLast_data_append _ ")" ')' (by decide)) (by decide))
    (by decide)]
  rw [count_notice_list_blocks d.data h]
  rw [count_ite_nil_right _ _ (count_singleton_ne _ _ (nextPageHint_ne_notice d.pagination))]
  simp

/-- Full `get_politician_affairs` narrative: the notice appears once as a
response header when any affair qualifies, plus once per qualifying
affair's detail block. -/
theorem count_notice_politicianAffairs (d : Affairs.PoliticianAffairsResponse)
    (h : ∀ a ∈ d.affairs, a.description ≠ Affairs.PRESUMPTION_NOTICE) :
    (Affairs.politicianAffairsLines d).count Affairs.PRESUMPTION_NOTICE
      = (if d.affairs.any (fun a => Affairs.needsPresumption a.status) then 1 else 0)
        + (d.affairs.filter (fun a => Affairs.needsPresumption a.status)).length := by
  unfold Affairs.politicianAffairsLines
  simp only [List.count_append]
  rw [count_eq_zero_of_forall_ne _ _ (by
    intro x hx
    rw [List.mem_cons, List.mem_cons, List.mem_singleton] at hx
    rcases hx with hx | hx | hx
    · subst hx
      exact line_ne_notice_head _ _ '#'
        (head_data_append _ _ _ (head_data_append "# Affaires judiciaires — " _ '#' (by decide)))
        (by decide)
    · subst hx
      exact line_ne_notice_getLast _ '*'
        (getLast_data_append _ " affaire(s)**" '*' (by decide)) (by decide)
    · subst hx
      decide)]
  rw [count_notice_politician_blocks d.affairs h]
  rw [count_singleton_ne _ _ (line_ne_notice_head _ _ 'h' (by decide) (by decide))]
  rw [show (if d.affairs.any (fun a => Affairs.needsPresumption a.status)
        then [Affairs.PRESUMPTION_NOTICE, ""] else ([] : List String)).count
        Affairs.PRESUMPTION_NOTICE
      = if d.affairs.any (fun a => Affairs.needsPresumption a.status) then 1 else 0 from by
    split
    · decide
    · rfl]
  simp

/-- Claim C1, amended.  In `list_affairs` the presumption notice appears
exactly once per affair whose status is in the unresolved set
(`ENQUETE_PRELIMINAIRE`, `MISE_EN_EXAMEN`, `PROCES_EN_COURS`,
`APPEL_EN_COURS`) and never for `CONDAMNATION_DEFINITIVE`.  In
`get_politician_affairs`, however, the notice is not rendered exactly once
per response: it appears once as a response header whenever at least one
affair qualifies, plus once more inside each qualifying affair's detail
block.  (The side conditions require only that the free-text description
fields are not themselves the notice line.) -/
theorem claimC1_presumption_notice :
    (∀ d : Affairs.AffairListResponse,
        (∀ x ∈ d.data, x.toAffair.description ≠ Affairs.PRESUMPTION_NOTICE) →
        (Affairs.listAffairsLines d).count Affairs.PRESUMPTION_NOTICE
          = (d.data.filter (fun x => Affairs.needsPresumption x.status)).length)
  ∧ (∀ d : Affairs.PoliticianAffairsResponse,
        (∀ a ∈ d.affairs, a.description ≠ Affairs.PRESUMPTION_NOTICE) →
        (Affairs.politicianAffairsLines d).count Affairs.PRESUMPTION_NOTICE
          = (if d.affairs.any (fun a => Affairs.needsPresumption a.status) then 1 else 0)
            + (d.affairs.filter (fun a => Affairs.needsPresumption a.status)).length)
  ∧ Affairs.needsPresumption "ENQUETE_PRELIMINAIRE" = true
  ∧ Affairs.needsPresumption "MISE_EN_EXAMEN" = true
  ∧ Affairs.needsPresumption "PROCES_EN_COURS" = true
  ∧ Affairs.needsPresumption "APPEL_EN_COURS" = true
  ∧ Affairs.needsPresumption "CONDAMNATION_DEFINITIVE" = false :=
  ⟨count_notice_listAffairs, count_notice_politicianAffairs,
   by decide, by decide, by decide, by decide, by decide⟩

/-- Claim C1, counterexample to the original statement: a concrete
single-politician response with exactly one qualifying affair renders the
presumption notice twice, not exactly once. -/
theorem claimC1_counterexample :
    (exPoliticianAffairs.affairs.filter
        (fun a => Affairs.needsPresumption a.status)).length = 1
  ∧ (Affairs.politicianAffairsLines exPoliticianAffairs).count Affairs.PRESUMPTION_NOTICE = 2
  ∧ (Affairs.politicianAffairsLines exPoliticianAffairs).count Affairs.PRESUMPTION_NOTICE ≠ 1 := by
  refine ⟨by decide, by decide, by decide⟩

/-! ### Pagination hint lemmas (claim C3)

The hint line starts with `'_'`; every other line a list builder pushes
starts with a different character (or is empty), except the raw affair
description, which gets a hypothesis. -/

theorem hint_head (p : Pagination) : (nextPageHint p).data.head? = some '_' := by
  unfold nextPageHint
  simp [String.data_append, List.head?_append]

theorem ne_hint_of_head (s : String) (p : Pagination) (h : s.data.head? ≠ some '_') :
    s ≠ nextPageHint p :=
  str_ne_of_head_ne _ _ (by rw [hint_head]; exact h)

theorem count_flatMap_zero {α : Type} (f : α → List String) (l : List α) (a : String)
    (h : ∀ x ∈ l, ∀ y ∈ f x, y ≠ a) : (l.flatMap f).count a = 0 :=
  count_eq_zero_of_forall_ne _ _ (by
    intro y hy
    rw [List.mem_flatMap] at hy
    obtain ⟨x, hx, hyx⟩ := hy
    exact h x hx y hyx)

theorem count_map_zero {α : Type} (f : α → String) (l : List α) (a : String)
    (h : ∀ x ∈ l, f x ≠ a) : (l.map f).count a = 0 :=
  count_eq_zero_of_forall_ne _ _ (by
    intro y hy
    rw [List.mem_map] at hy
    obtain ⟨x, hx, rfl⟩ := hy
    exact h x hx)

theorem count_pair_self (x a : String) (h : x ≠ a) : ([x, a] : List String).count a = 1 := by
  simp [List.count_cons, Ne.symm h]

/-- The trailing hint segment shared by most list builders. -/
theorem count_hint_tail {c : Prop} [Decidable c] (p : Pagination) :
    (if c then ["", nextPageHint p] else []).count (nextPageHint p)
      = if c then 1 else 0 := by
  split
  · exact count_pair_self _ _ (ne_hint_of_head "" p (by decide))
  · rfl

/-- The `search_politicians` narrative contains the exact next-page hint
line once when `page < totalPages` and not at all otherwise. -/
theorem count_hint_searchPoliticians (d : Politicians.PoliticianListResponse) :
    (Politicians.searchPoliticiansLines d).count (nextPageHint d.pagination)
      = if d.pagination.page < d.pagination.totalPages then 1 else 0 := by
  unfold Politicians.searchPoliticiansLines
  simp only [List.count_append]
  rw [count_pair_ne _ _ _
    (ne_hint_of_head _ _ (by simp [String.data_append, List.head?_append]))
    (ne_hint_of_head "" _ (by decide))]
  rw [count_map_zero _ _ _ (fun x _ =>
    ne_hint_of_head _ _ (by
      simp [Politicians.formatPoliticianSummary, String.data_append, List.head?_append]))]
  rw [count_hint_tail]
  simp

/-- The `list_votes` narrative contains the exact next-page hint line once
when `page < totalPages` and not at all otherwise. -/
theorem count_hint_listVotes (d : Votes.VoteListResponse) :
    (Votes.listVotesLines d).count (nextPageHint d.pagination)
      = if d.pagination.page < d.pagination.totalPages then 1 else 0 := by
  unfold Votes.listVotesLines
  simp only [List.count_append]
  rw [count_pair_ne _ _ _
    (ne_hint_of_head _ _ (by simp [String.data_append, List.head?_append]))
    (ne_hint_of_head "" _ (by decide))]
  rw [count_flatMap_zero _ _ _ (by
    intro x _ y hy
    unfold Votes.scrutinLines at hy
    rw [List.mem_cons, List.mem_singleton] at hy
    rcases hy with rfl | rfl
    · exact ne_hint_of_head _ _ (by simp [String.data_append, List.head?_append])
    · exact ne_hint_of_head _ _ (by simp [String.data_append, List.head?_append]))]
  rw [count_hint_tail]
  simp

/-- The `get_politician_votes` narrative contains the exact next-page hint
line once when `page < totalPages` and not at all otherwise. -/
theorem count_hint_politicianVotes (d : Votes.PoliticianVotesResponse) :
    (Votes.politicianVotesLines d).count (nextPageHint d.pagination)
      = if d.pagination.page < d.pagination.totalPages then 1 else 0 := by
  unfold Votes.politicianVotesLines
  simp only [List.count_append]
  rw [count_pair_ne _ _ _
    (ne_hint_of_head _ _ (by simp [String.data_append, List.head?_append]))
    (ne_hint_of_head "" _ (by decide))]
  rw [count_eq_zero_of_forall_ne _ _ (by
    intro x hx
    simp only [List.mem_cons, List.not_mem_nil, or_false] at hx
    rcases hx with rfl | rfl | rfl | rfl | rfl | rfl | rfl | rfl
    · exact ne_hint_of_head _ _ (by decide)
    · exact ne_hint_of_head _ _ (by simp [String.data_append, List.head?_append])
    · exact ne_hint_of_head _ _ (by
        simp [Votes.pourLine, String.data_append, List.head?_append])
    · exact ne_hint_of_head _ _ (by
        simp [Votes.contreLine, String.data_append, List.head?_append])
    · exact ne_hint_of_head _ _ (by simp [String.data_append, List.head?_append])
    · exact ne_hint_of_head _ _ (by simp [String.data_append, List.head?_append])
    · exact ne_hint_of_head _ _ (by simp [String.data_append, List.head?_append])
    · exact ne_hint_of_head "" _ (by decide))]
  rw [count_singleton_ne _ _
    (ne_hint_of_head _ _ (by simp [String.data_append, List.head?_append]))]
  rw [count_flatMap_zero _ _ _ (by
    intro x _ y hy
    unfold Votes.voteRecordLines at hy
    rw [List.mem_cons, List.mem_singleton] at hy
    rcases hy with rfl | rfl
    · exact ne_hint_of_head _ _ (by simp [String.data_append, List.head?_append])
    · exact ne_hint_of_head _ _ (by simp [String.data_append, List.head?_append]))]
  rw [count_hint_tail]
  simp

/-- The `list_mandates` narrative contains the exact next-page hint line
once when `page < totalPages` and not at all otherwise. -/
theorem count_hint_listMandates (d : Mandates.MandateListResponse) :
    (Mandates.listMandatesLines d).count (nextPageHint d.pagination)
      = if d.pagination.page < d.pagination.totalPages then 1 else 0 := by
  unfold Mandates.listMandatesLines
  simp only [List.count_append]
  rw [count_pair_ne _ _ _
    (ne_hint_of_head _ _ (by simp [String.data_append, List.head?_append]))
    (ne_hint_of_head "" _ (by decide))]
  rw [count_flatMap_zero _ _ _ (by
    intro x _ y hy
    unfold Mandates.mandateLines at hy
    rw [List.mem_cons, List.mem_cons, List.mem_singleton] at hy
    rcases hy with rfl | rfl | rfl
    · exact ne_hint_of_head _ _ (by simp [String.data_append, List.head?_append])
    · exact ne_hint_of_head _ _ (by simp [String.data_append, List.head?_append])
    · exact ne_hint_of_head _ _ (by simp [String.data_append, List.head?_append]))]
  rw [count_hint_tail]
  simp

/-- The `list_parties` narrative contains the exact next-page hint line
once when `page < totalPages` and not at all otherwise. -/
theorem count_hint_listParties (d : Parties.PartyListResponse) :
    (Parties.listPartiesLines d).count (nextPageHint d.pagination)
      = if d.pagination.page < d.pagination.totalPages then 1 else 0 := by
  unfold Parties.listPartiesLines
  simp only [List.count_append]
  rw [count_pair_ne _ _ _
    (ne_hint_of_head _ _ (by simp [String.data_append, List.head?_append]))
    (ne_hint_of_head "" _ (by decide))]
  rw [count_flatMap_zero _ _ _ (by
    intro x _ y hy
    unfold Parties.partyLines at hy
    rw [List.mem_cons, List.mem_singleton] at hy
    rcases hy with rfl | rfl
    · exact ne_hint_of_head _ _ (by simp [String.data_append, List.head?_append])
    · exact ne_hint_of_head _ _ (by simp [String.data_append, List.head?_append]))]
  rw [count_hint_tail]
  simp

theorem partyAtTimeLines_count_hint (pt : Option Affairs.PartyRef) (p : Pagination) :
    (Affairs.partyAtTimeLines pt).count (nextPageHint p) = 0 := by
  cases pt with
  | none => rfl
  | some q =>
    exact count_singleton_ne _ _
      (ne_hint_of_head _ _ (by simp [String.data_append, List.head?_append]))

/-- One affair detail block never contains the next-page hint line
(assuming the free-text description is not itself that line). -/
theorem count_hint_detail (a : Affairs.Affair) (pn : Option String) (p : Pagination)
    (hd : a.description ≠ nextPageHint p) :
    (Affairs.formatAffairDetailLines a pn).count (nextPageHint p) = 0 := by
  unfold Affairs.formatAffairDetailLines
  simp only [List.count_append]
  rw [count_singleton_ne _ _
    (ne_hint_of_head _ _ (by simp [String.data_append, List.head?_append]))]
  rw [count_ite_nil_right _ _ (count_singleton_ne _ _
    (ne_hint_of_head _ _ (by simp [String.data_append, List.head?_append])))]
  rw [count_pair_ne _ _ _
    (ne_hint_of_head _ _ (by simp [String.data_append, List.head?_append]))
    (ne_hint_of_head _ _ (by simp [String.data_append, List.head?_append]))]
  rw [count_ite_nil_right _ _ (count_singleton_ne _ _
    (ne_hint_of_head _ _ (by simp [String.data_append, List.head?_append])))]
  rw [count_ite_nil_right _ _ (count_singleton_ne _ _
    (ne_hint_of_head _ _ (by simp [String.data_append, List.head?_append])))]
  rw [count_ite_nil_right _ _ (count_singleton_ne _ _
    (ne_hint_of_head _ _ (by simp [String.data_append, List.head?_append])))]
  rw [count_ite_nil_right _ _ (count_singleton_ne _ _
    (ne_hint_of_head _ _ (by simp [String.data_append, List.head?_append])))]
  rw [count_ite_nil_right _ _ (count_singleton_ne _ _
    (ne_hint_of_head _ _ (by simp [String.data_append, List.head?_append])))]
  rw [partyAtTimeLines_count_hint]
  rw [count_pair_ne _ _ _ (ne_hint_of_head "" _ (by decide)) hd]
  rw [count_ite_nil_right _ _ (by
    rw [List.count_append]
    rw [count_pair_ne _ _ _ (ne_hint_of_head "" _ (by decide))
      (ne_hint_of_head _ _ (by decide))]
    rw [count_map_zero _ _ _ (fun s _ =>
      ne_hint_of_head _ _ (by
        simp [Affairs.sourceLine, String.data_append, List.head?_append]))])]
  rw [count_ite_nil_right _ _ (count_pair_ne _ _ _
    (ne_hint_of_head "" _ (by decide)) (ne_hint_of_head _ _ (by decide)))]

/-- The `list_affairs` narrative contains the exact next-page hint line
once when `page < totalPages` and not at all otherwise. -/
theorem count_hint_listAffairs (d : Affairs.AffairListResponse)
    (h : ∀ x ∈ d.data, x.toAffair.description ≠ nextPageHint d.pagination) :
    (Affairs.listAffairsLines d).count (nextPageHint d.pagination)
      = if d.pagination.page < d.pagination.totalPages then 1 else 0 := by
  unfold Affairs.listAffairsLines
  simp only [List.count_append]
  rw [count_pair_ne _ _ _
    (ne_hint_of_head _ _ (by simp [String.data_append, List.head?_append]))
    (ne_hint_of_head "" _ (by decide))]
  rw [count_flatMap_zero _ _ _ (by
    intro x hx y hy
    rw [List.mem_append] at hy
    rcases hy with hy | hy
    · intro he
      subst he
      exact List.count_eq_zero.mp (count_hint_detail _ _ _ (h x hx)) hy
    · rw [List.mem_cons, List.mem_cons, List.mem_singleton] at hy
      rcases hy with rfl | rfl | rfl
      · exact ne_hint_of_head "" _ (by decide)
      · exact ne_hint_of_head _ _ (by decide)
      · exact ne_hint_of_head "" _ (by decide))]
  rw [show (if d.pagination.page < d.pagination.totalPages
        then [nextPageHint d.pagination] else ([] : List String)).count
        (nextPageHint d.pagination)
      = if d.pagination.page < d.pagination.totalPages then 1 else 0 from by
    split
    · simp
    · rfl]
  simp

/-- Claim C1, witness: the amended theorem applied to concrete responses. -/
theorem claimC1_witness :
    (Affairs.listAffairsLines exAffairList).count Affairs.PRESUMPTION_NOTICE
      = (exAffairList.data.filter (fun x => Affairs.needsPresumption x.status)).length
  ∧ (Affairs.politicianAffairsLines exPoliticianAffairs).count Affairs.PRESUMPTION_NOTICE
      = (if exPoliticianAffairs.affairs.any (fun a => Affairs.needsPresumption a.status)
          then 1 else 0)
        + (exPoliticianAffairs.affairs.filter
            (fun a => Affairs.needsPresumption a.status)).length :=
  ⟨claimC1_presumption_notice.1 exAffairList (by decide),
   claimC1_presumption_notice.2.1 exPoliticianAffairs (by decide)⟩

/-- Claim C3: every embedded list-returning tool's narrative contains the
next-page hint line exactly once when `page < totalPages` and not at all
otherwise, and the hint line references exactly `page + 1`.  (For
`list_affairs` the side condition requires the free-text descriptions not
to be the hint line itself.) -/
theorem claimC3_pagination_hint :
    (∀ p : Pagination,
        nextPageHint p = "_Page suivante : page=" ++ toString (p.page + 1) ++ "_")
  ∧ (∀ d : Politicians.PoliticianListResponse,
        (Politicians.searchPoliticiansLines d).count (nextPageHint d.pagination)
          = if d.pagination.page < d.pagination.totalPages then 1 else 0)
  ∧ (∀ d : Votes.VoteListResponse,
        (Votes.listVotesLines d).count (nextPageHint d.pagination)
          = if d.pagination.page < d.pagination.totalPages then 1 else 0)
  ∧ (∀ d : Votes.PoliticianVotesResponse,
        (Votes.politicianVotesLines d).count (nextPageHint d.pagination)
          = if d.pagination.page < d.pagination.totalPages then 1 else 0)
  ∧ (∀ d : Mandates.MandateListResponse,
        (Mandates.listMandatesLines d).count (nextPageHint d.pagination)
          = if d.pagination.page < d.pagination.totalPages then 1 else 0)
  ∧ (∀ d : Parties.PartyListResponse,
        (Parties.listPartiesLines d).count (nextPageHint d.pagination)
          = if d.pagination.page < d.pagination.totalPages then 1 else 0)
  ∧ (∀ d : Affairs.AffairListResponse,
        (∀ x ∈ d.data, x.toAffair.description ≠ nextPageHint d.pagination) →
        (Affairs.listAffairsLines d).count (nextPageHint d.pagination)
          = if d.pagination.page < d.pagination.totalPages then 1 else 0) :=
  ⟨fun _ => rfl, count_hint_searchPoliticians, count_hint_listVotes,
   count_hint_politicianVotes, count_hint_listMandates, count_hint_listParties,
   count_hint_listAffairs⟩

/-- Claim C2, counterexample: the mandate-type code
`PRESIDENT_REPUBLIQUE` renders differently in `list_mandates` (which keys
the presidency label under that code) and in the politicians module (which
keys it under `PRESIDENT`, so the code falls back to itself), and
symmetrically for `PRESIDENT` — so the same enum code does not render
identically across all tools that show mandate types. -/
theorem claimC2_counterexample :
    Politicians.formatMandateType "PRESIDENT_REPUBLIQUE"
        ≠ Mandates.formatMandateType "PRESIDENT_REPUBLIQUE"
  ∧ Politicians.formatMandateType "PRESIDENT_REPUBLIQUE" = "PRESIDENT_REPUBLIQUE"
  ∧ Mandates.formatMandateType "PRESIDENT_REPUBLIQUE" = "Président(e) de la République"
  ∧ Politicians.formatMandateType "PRESIDENT" = "Président(e) de la République"
  ∧ Mandates.formatMandateType "PRESIDENT" = "PRESIDENT" := by
  refine ⟨by decide, by decide, by decide, by decide, by decide⟩

/-- Claim C2, amended.  Enum label rendering is consistent for every code
present in both of the tables being compared: the politicians-module and
mandates-module mandate tables agree on all fourteen shared codes, and the
parties-module and advanced-search-module tables agree with the
politicians module on every code they contain.  The tables diverge only in
coverage: the mandates module keys the presidency under
`PRESIDENT_REPUBLIQUE` (and knows `ADJOINT_MAIRE`), the others under
`PRESIDENT`.  Every lookup-table formatter returns a code absent from its
table unchanged rather than raising an error. -/
theorem claimC2_enum_labels :
    (∀ c ∈ commonMandateCodes,
        Politicians.formatMandateType c = Mandates.formatMandateType c)
  ∧ (∀ c ∈ Parties.mandateTypeLabels.map Prod.fst,
        Parties.formatMandateType c = Politicians.formatMandateType c)
  ∧ (∀ c ∈ Search.mandateTypeLabels.map Prod.fst,
        Search.formatMandateType c = Politicians.formatMandateType c)
  ∧ (∀ c : String, Politicians.mandateTypeLabels.lookup c = none →
        Politicians.formatMandateType c = c)
  ∧ (∀ c : String, Mandates.mandateTypeLabels.lookup c = none →
        Mandates.formatMandateType c = c)
  ∧ (∀ c : String, Affairs.statusLabels.lookup c = none → Affairs.formatStatus c = c)
  ∧ (∀ c : String, Affairs.categoryLabels.lookup c = none → Affairs.formatCategory c = c)
  ∧ (∀ c : String, FactChecks.verdictLabels.lookup c = none → FactChecks.formatVerdict c = c)
  ∧ (∀ c : String, Votes.positionLabels.lookup c = none → Votes.formatPosition c = c)
  ∧ (∀ c : String, Parties.positionLabels.lookup c = none →
        Parties.formatPosition (some c) = c)
  ∧ (∀ c : String, Politicians.relationTypeLabels.lookup c = none →
        Politicians.formatRelationType c = c)
  ∧ Affairs.formatCategory "CORRUPTION" = "Corruption" := by
  refine ⟨?_, ?_, ?_, ?_, ?_, ?_, ?_, ?_, ?_, ?_, ?_, by decide⟩
  · intro c hc
    fin_cases hc <;> rfl
  · intro c hc
    fin_cases hc <;> rfl
  · intro c hc
    fin_cases hc <;> rfl
  · intro c h
    unfold Politicians.formatMandateType
    rw [h]
    rfl
  · intro c h
    unfold Mandates.formatMandateType
    rw [h]
    rfl
  · intro c h
    unfold Affairs.formatStatus
    rw [h]
    rfl
  · intro c h
    unfold Affairs.formatCategory
    rw [h]
    rfl
  · intro c h
    unfold FactChecks.formatVerdict
    rw [h]
    rfl
  · intro c h
    unfold Votes.formatPosition
    rw [h]
    rfl
  · intro c h
    show (Parties.positionLabels.lookup c).getD c = c
    rw [h]
    rfl
  · intro c h
    unfold Politicians.formatRelationType
    rw [h]
    rfl

/-- Claim C2, witness: shared-code agreement at `DEPUTE` and unchanged
fallback at an unknown code, obtained from the amended theorem. -/
theorem claimC2_witness :
    Politicians.formatMandateType "DEPUTE" = Mandates.formatMandateType "DEPUTE"
  ∧ Affairs.formatStatus "CODE_INCONNU" = "CODE_INCONNU" :=
  ⟨claimC2_enum_labels.1 "DEPUTE" (by decide),
   claimC2_enum_labels.2.2.2.2.2.1 "CODE_INCONNU" (by decide)⟩

/-- Claim C3, witness: the hint invariant applied to a concrete affairs
list response on page 1 of 3. -/
theorem claimC3_witness :
    (Affairs.listAffairsLines exAffairList).count (nextPageHint exAffairList.pagination)
      = if exAffairList.pagination.page < exAffairList.pagination.totalPages then 1 else 0 :=
  claimC3_pagination_hint.2.2.2.2.2.2 exAffairList (by decide)

/-- Claim C4: `fetchAPI` never yields a successful result on a non-ok HTTP
status — it fails with an `ApiError` carrying the numeric status and the
response body text (or the "Unknown error" placeholder when the body
cannot be read) — that failure propagates to the invoking tool, and an ok
status returns the parsed JSON body. -/
theorem claimC4_http_errors :
    (∀ (α : Type) (r : Api.HttpReply α),
        Api.respOk r.status = false →
          Api.fetchAPIResult r
            = .error ⟨r.status,
                "API " ++ toString r.status ++ ": " ++ r.bodyText.getD "Unknown error"⟩
          ∧ ∀ a : α, Api.fetchAPIResult r ≠ .ok a)
  ∧ (∀ (α : Type) (r : Api.HttpReply α),
        Api.respOk r.status = true → Api.fetchAPIResult r = .ok r.json)
  ∧ (∀ r : Api.HttpReply Affairs.AffairListResponse,
        Api.respOk r.status = false →
          runListAffairs (Api.fetchAPIResult r)
            = .error ⟨r.status,
                "API " ++ toString r.status ++ ": " ++ r.bodyText.getD "Unknown error"⟩) := by
  refine ⟨?_, ?_, ?_⟩
  · intro α r h
    constructor
    · simp [Api.fetchAPIResult, h]
    · intro a
      simp [Api.fetchAPIResult, h]
  · intro α r h
    simp [Api.fetchAPIResult, h]
  · intro r h
    simp [runListAffairs, Api.fetchAPIResult, h, Except.map]

/-- Claim C4, witness: a 404 reply with an unreadable body yields the
typed error with the placeholder text and propagates through the
`list_affairs` pipeline. -/
theorem claimC4_witness :
    Api.fetchAPIResult (⟨404, none, exAffairList⟩ : Api.HttpReply Affairs.AffairListResponse)
      = .error ⟨404, "API 404: Unknown error"⟩
  ∧ runListAffairs
      (Api.fetchAPIResult (⟨404, none, exAffairList⟩ : Api.HttpReply Affairs.AffairListResponse))
      = .error ⟨404, "API 404: Unknown error"⟩ :=
  ⟨((claimC4_http_errors.1 Affairs.AffairListResponse ⟨404, none, exAffairList⟩
      (by decide)).1).trans (congrArg Except.error (by decide)),
   (claimC4_http_errors.2.2 ⟨404, none, exAffairList⟩ (by decide)).trans
     (congrArg Except.error (by decide))⟩

/-- Claim C5: `formatDate` returns the placeholder for null and undefined
input, returns an unparseable string unchanged, and renders the ISO date
1977-12-21 as a long-form French date containing "21", "décembre" and
"1977". -/
theorem claimC5_formatDate :
    Api.formatDate .jsNull = "—"
  ∧ Api.formatDate .jsUndefined = "—"
  ∧ Api.formatDate (.str "not-a-date") = "not-a-date"
  ∧ Api.formatDate (.str "1977-12-21") = "21 décembre 1977"
  ∧ (∃ a b : String, Api.formatDate (.str "1977-12-21") = a ++ "21" ++ b)
  ∧ (∃ a b : String, Api.formatDate (.str "1977-12-21") = a ++ "décembre" ++ b)
  ∧ (∃ a b : String, Api.formatDate (.str "1977-12-21") = a ++ "1977" ++ b) :=
  ⟨by decide, by decide, by decide, by decide,
   ⟨"", " décembre 1977", by decide⟩,
   ⟨"21 ", " 1977", by decide⟩,
   ⟨"21 décembre ", "", by decide⟩⟩

/-- Claim C8: `fetchAPI` omits exactly the query parameters whose value is
undefined or the empty string; every other value — including the boolean
`false` — is stringified and included. -/
theorem claimC8_query_params :
    (∀ (k : String) (v : Api.ParamValue) (ps : List (String × Api.ParamValue)),
        Api.buildQuery ((k, v) :: ps)
          = if v = .undef ∨ v = .str "" then Api.buildQuery ps
            else (k, Api.stringifyParam v) :: Api.buildQuery ps)
  ∧ Api.includeParam (.bool false) = true
  ∧ Api.stringifyParam (.bool false) = "false"
  ∧ Api.includeParam .undef = false
  ∧ Api.includeParam (.str "") = false := by
  refine ⟨?_, rfl, rfl, rfl, rfl⟩
  intro k v ps
  cases v with
  | str s =>
    by_cases hs : s = ""
    · subst hs
      simp [Api.buildQuery, Api.includeParam]
    · simp [Api.buildQuery, Api.includeParam, hs]
  | num n => simp [Api.buildQuery, Api.includeParam]
  | bool b => simp [Api.buildQuery, Api.includeParam]
  | undef => simp [Api.buildQuery, Api.includeParam]

/-- Claim C9: the scrutin-result label function maps "ADOPTED" to "Adopté"
and every other input — including unrecognized codes — to "Rejeté", unlike
the lookup-table formatters, which return unknown codes unchanged. -/
theorem claimC9_formatResult :
    Votes.formatResult "ADOPTED" = "Adopté"
  ∧ (∀ s : String, s ≠ "ADOPTED" → Votes.formatResult s = "Rejeté")
  ∧ Votes.formatResult "REJECTED" = "Rejeté"
  ∧ Votes.formatResult "UNKNOWN_CODE" = "Rejeté"
  ∧ Votes.formatResult "UNKNOWN_CODE" ≠ "UNKNOWN_CODE"
  ∧ Affairs.formatStatus "UNKNOWN_CODE" = "UNKNOWN_CODE" := by
  refine ⟨rfl, ?_, rfl, rfl, by decide, by decide⟩
  intro s hs
  unfold Votes.formatResult
  rw [if_neg hs]

/-- Claim C9, witness: the universal "everything else is Rejeté" clause at
a concrete non-ADOPTED input. -/
theorem claimC9_witness : Votes.formatResult "ABSTENTION" = "Rejeté" :=
  claimC9_formatResult.2.1 "ABSTENTION" (by decide)

/-- Claim C10: with `stats.total = 0`, the percentage computations of
`get_politician_votes` are short-circuited by the truthiness guard — both
the "Pour" and "Contre" lines render 0% and no division is performed. -/
theorem claimC10_zero_total_guard :
    ∀ s : Votes.VotesStats, s.total = 0 →
      Votes.pourPct s = 0
      ∧ Votes.contrePct s = 0
      ∧ Votes.pourLine s = "- **Pour** : " ++ toString s.pour ++ " (" ++ "0" ++ "%)"
      ∧ Votes.contreLine s = "- **Contre** : " ++ toString s.contre ++ " (" ++ "0" ++ "%)" := by
  intro s h
  have hp : Votes.pourPct s = 0 := by simp [Votes.pourPct, h]
  have hc : Votes.contrePct s = 0 := by simp [Votes.contrePct, h]
  refine ⟨hp, hc, ?_, ?_⟩
  · unfold Votes.pourLine
    rw [hp]
    rfl
  · unfold Votes.contreLine
    rw [hc]
    rfl

/-- Claim C10, witness: the guard applied to concrete zero-total stats. -/
theorem claimC10_witness :
    Votes.pourPct exZeroStats = 0 ∧ Votes.contrePct exZeroStats = 0 :=
  ⟨(claimC10_zero_total_guard exZeroStats rfl).1,
   (claimC10_zero_total_guard exZeroStats rfl).2.1⟩

/-! ### Department statistics tallying (claim C6) -/

theorem sumCounts_tallyDominant (m : List (String × Nat)) (k : String) :
    Departments.sumCounts (Departments.tallyDominant m k)
      = Departments.sumCounts m + 1 := by
  induction m with
  | nil => rfl
  | cons kv rest ih =>
    obtain ⟨k', v⟩ := kv
    unfold Departments.tallyDominant
    by_cases h : k' = k
    · simp [h, Departments.sumCounts]
      omega
    · simp only [h, if_false, Departments.sumCounts, List.map_cons, List.sum_cons]
      unfold Departments.sumCounts at ih
      omega

theorem partyDominance_foldl (ds : List Departments.DepartmentStats)
    (m : List (String × Nat)) :
    Departments.sumCounts
      (ds.foldl
        (fun m d =>
          match d.dominantParty with
          | some p => Departments.tallyDominant m p.shortName
          | none => m)
        m)
      = Departments.sumCounts m + (ds.filter (fun d => d.dominantParty.isSome)).length := by
  induction ds generalizing m with
  | nil => simp
  | cons d rest ih =>
    rw [List.foldl_cons, List.filter_cons]
    cases hd : d.dominantParty with
    | none => simp [hd, ih]
    | some p =>
      simp only [hd, Option.isSome_some, if_true]
      rw [ih, sumCounts_tallyDominant]
      simp [Nat.add_comm, Nat.add_assoc, Nat.add_left_comm]

/-- Claim C6: `get_department_stats` computes `partyDominance` locally by
tallying the short name of each department's non-null `dominantParty`, so
the values of the mapping sum exactly (hence at most) to the number of
departments with a non-null dominant party. -/
theorem claimC6_partyDominance :
    ∀ departments : List Departments.DepartmentStats,
      Departments.sumCounts (Departments.partyDominance departments)
        = (departments.filter (fun d => d.dominantParty.isSome)).length
      ∧ Departments.sumCounts (Departments.partyDominance departments)
        ≤ (departments.filter (fun d => d.dominantParty.isSome)).length := by
  intro departments
  have h : Departments.sumCounts (Departments.partyDominance departments)
      = (departments.filter (fun d => d.dominantParty.isSome)).length := by
    unfold Departments.partyDominance
    rw [partyDominance_foldl]
    simp [Departments.sumCounts]
  exact ⟨h, le_of_eq h⟩

/-! ### Vote statistics ordering (claim C7) -/

theorem insertPartyDesc_perm (p : Votes.PartyStats) (l : List Votes.PartyStats) :
    (Votes.insertPartyDesc p l).Perm (p :: l) := by
  induction l with
  | nil => exact List.Perm.refl _
  | cons q qs ih =>
    unfold Votes.insertPartyDesc
    split
    · exact List.Perm.refl _
    · exact (List.Perm.cons q ih).trans (List.Perm.swap p q qs)

theorem sortParties_perm (l : List Votes.PartyStats) :
    (Votes.sortPartiesByCohesionDesc l).Perm l := by
  induction l with
  | nil => exact List.Perm.refl _
  | cons p ps ih =>
    unfold Votes.sortPartiesByCohesionDesc
    rw [List.foldr_cons]
    exact (insertPartyDesc_perm p _).trans (List.Perm.cons p ih)

theorem pairwise_insertPartyDesc (p : Votes.PartyStats) (l : List Votes.PartyStats)
    (h : List.Pairwise (fun a b => b.cohesionRate ≤ a.cohesionRate) l) :
    List.Pairwise (fun a b => b.cohesionRate ≤ a.cohesionRate)
      (Votes.insertPartyDesc p l) := by
  induction l with
  | nil => exact List.pairwise_singleton _ p
  | cons q qs ih =>
    rcases List.pairwise_cons.mp h with ⟨hq, hqs⟩
    unfold Votes.insertPartyDesc
    split
    case isTrue hlt =>
      refine List.pairwise_cons.mpr ⟨?_, h⟩
      intro x hx
      rcases List.mem_cons.mp hx with rfl | hx
      · exact le_of_lt hlt
      · exact le_trans (hq x hx) (le_of_lt hlt)
    case isFalse hge =>
      refine List.pairwise_cons.mpr ⟨?_, ih hqs⟩
      intro x hx
      rcases (insertPartyDesc_perm p qs).mem_iff.mp hx with hx'
      rcases List.mem_cons.mp hx' with rfl | hx''
      · exact le_of_not_lt hge
      · exact hq x hx''

theorem sortParties_sorted (l : List Votes.PartyStats) :
    List.Pairwise (fun a b => b.cohesionRate ≤ a.cohesionRate)
      (Votes.sortPartiesByCohesionDesc l) := by
  induction l with
  | nil => exact List.Pairwise.nil
  | cons p ps ih =>
    unfold Votes.sortPartiesByCohesionDesc
    rw [List.foldr_cons]
    exact pairwise_insertPartyDesc p _ ih

/-- Claim C7, counterexample to the original statement: on a concrete
upstream response whose party list arrives in increasing cohesion order,
the structured payload (which projects the unsorted upstream list) is not
in non-increasing cohesion order, and the divisive scrutins (sliced, never
re-ranked) are likewise not in non-increasing division-score order. -/
theorem claimC7_counterexample :
    ((Votes.voteStatsStructuredParties exVoteStats).map (fun p => p.cohesionRate)
        = [10, 90])
  ∧ ¬ List.Pairwise (fun a b : ℚ => b ≤ a)
      ((Votes.voteStatsStructuredParties exVoteStats).map (fun p => p.cohesionRate))
  ∧ ((Votes.voteStatsStructuredDivisive exVoteStats).map (fun s => s.divisionScore)
        = [5, 95])
  ∧ ¬ List.Pairwise (fun a b : ℚ => b ≤ a)
      ((Votes.voteStatsStructuredDivisive exVoteStats).map (fun s => s.divisionScore)) := by
  refine ⟨by decide, by decide, by decide, by decide⟩

/-- Claim C7, amended.  `get_vote_stats` sorts only the markdown
narrative's party list by non-increasing cohesion rate (a permutation of
the upstream list); the structured payload lists parties in upstream
order, and the divisive scrutins are truncated to the first ten upstream
entries in both outputs without any local re-ranking. -/
theorem claimC7_vote_stats_order :
    ∀ d : Votes.VoteStatsResponse,
      List.Pairwise (fun a b => b.cohesionRate ≤ a.cohesionRate)
        (Votes.sortPartiesByCohesionDesc d.parties)
      ∧ (Votes.sortPartiesByCohesionDesc d.parties).Perm d.parties
      ∧ (∀ chamber : Option String, ∃ pre post : List String,
            Votes.getVoteStatsLines chamber d
              = pre ++ (Votes.sortPartiesByCohesionDesc d.parties).map Votes.partyCohesionLine
                  ++ post)
      ∧ (Votes.voteStatsStructuredParties d).map (fun p => p.cohesionRate)
          = d.parties.map (fun p => p.cohesionRate)
      ∧ (Votes.voteStatsStructuredDivisive d).map (fun s => s.divisionScore)
          = (d.divisiveScrutins.take 10).map (fun s => s.divisionScore)
      ∧ (Votes.voteStatsStructuredDivisive d).length ≤ 10 := by
  intro d
  refine ⟨sortParties_sorted d.parties, sortParties_perm d.parties, ?_, ?_, ?_, ?_⟩
  · intro chamber
    refine ⟨["# Statistiques de vote — " ++ Votes.chamberLabel chamber, ""]
        ++ ["## Vue globale",
            "- **Total scrutins** : " ++ toString d.global.totalScrutins,
            "- **Total votes** : " ++ toString d.global.totalVotes,
            "- Pour : " ++ toString d.global.totalVotesFor,
            "- Contre : " ++ toString d.global.totalVotesAgainst,
            "- Abstention : " ++ toString d.global.totalVotesAbstain,
            "- **Adoptés** : " ++ toString d.global.adoptes ++ " — **Rejetés** : " ++
              toString d.global.rejetes,
            "- **Taux de participation** : " ++ toString d.global.participationRate ++ "%", ""]
        ++ ["## Cohésion par parti"],
      [""] ++ (if d.divisiveScrutins.length > 0 then
          ["## Scrutins les plus divisifs"] ++ (d.divisiveScrutins.take 10).flatMap
            Votes.divisiveLines
        else []), ?_⟩
    unfold Votes.getVoteStatsLines
    simp [List.append_assoc]
  · unfold Votes.voteStatsStructuredParties
    rw [List.map_map]
    rfl
  · unfold Votes.voteStatsStructuredDivisive
    rw [List.map_map]
    rfl
  · unfold Votes.voteStatsStructuredDivisive
    rw [List.length_map]
    exact le_trans (List.length_take_le 10 d.divisiveScrutins) (le_refl 10)

end Poligraph
